import Mathlib

/-!
Verification of the linkoader media-extraction engine.

Shallow embedding of the Python sources under `src/backend/app/`:
error taxonomy (`exceptions.py`), canonical result model (`models.py`),
the yt-dlp error classifier (`extractors/base.py`), URL routing
(`router.py`, `extractors/base.py`), the YouTube and Instagram strategy
chains (`extractors/youtube.py`, `extractors/instagram.py`), rendition
selection and result normalisation (`extractors/youtube.py`), title
clamping (`extractors/youtube.py`, `extractors/twitter.py`), the API
entry point (`main.py`), and the per-domain rate limiter / stealth
request state (`stealth.py`).

Python strings are modelled as their code-point sequences (`List Char`
inside `String`), absent dict keys as `Option`/defaulted fields, raised
exceptions as `Except` errors, wall-clock instants as rationals, and
strategy network activity as an environment of abstract outcomes.
-/

namespace Linkoader

/-- The `ExtractionError` hierarchy of `app/exceptions.py`, one constructor
per subclass; `unsupportedPlatform` carries the `supported` platform list
attached by `UnsupportedPlatformError`. -/
inductive ErrKind where
  | invalidUrl
  | unsupportedPlatform (supported : List String)
  | notFound
  | ageRestricted
  | geoBlocked
  | loginRequired
  | upstream
  | extractionFailed
  | timeout
deriving DecidableEq, Repr

/-- The `status_code` attached by each `ExtractionError` subclass constructor. -/
def ErrKind.statusCode : ErrKind → Nat
  | .invalidUrl => 400
  | .unsupportedPlatform _ => 400
  | .notFound => 404
  | .ageRestricted => 403
  | .geoBlocked => 403
  | .loginRequired => 403
  | .upstream => 502
  | .extractionFailed => 503
  | .timeout => 504

/-- The `media_type` literal of `MediaInfo` in `app/models.py`. -/
inductive MediaType where
  | video
  | audio
  | image
  | document
deriving DecidableEq, Repr

/-- Model `MediaInfo` from `app/models.py`.  All fields are plain data; the model
declares no validator on `download_url` (only `duration` is coerced). -/
structure MediaInfo where
  platform : String
  title : String
  thumbnail : String
  mediaType : MediaType
  format : String
  quality : String
  fileSize : Nat
  downloadUrl : String
  duration : Option Int := none
  author : Option String := none
deriving DecidableEq, Repr

/-- Python `str.lower()` restricted to per-code-point lowering (the
keyword sets of the classifier are ASCII, where this agrees with Python). -/
def pyLower (s : String) : String :=
  String.mk (s.data.map Char.toLower)

/-- Python `needle in haystack` on strings: contiguous substring test. -/
def listContains (needle : List Char) : List Char → Bool
  | [] => needle.isEmpty
  | c :: cs => needle.isPrefixOf (c :: cs) || listContains needle cs

/-- Predicate `kw in error_msg` as used by `classify_ytdlp_error`. -/
def containsSub (kw s : String) : Bool :=
  listContains kw.data s.data

/-- The "content not available" keywords of `classify_ytdlp_error`
(`extractors/base.py` lines 106-110). -/
def notFoundKeywords : List String :=
  ["not found", "removed", "private", "unavailable",
   "does not exist", "been deleted", "no video", "no media",
   "protected", "suspended"]

/-- The "age / maturity gates" keywords (`extractors/base.py` line 114). -/
def ageKeywords : List String :=
  ["age", "mature", "age-restricted"]

/-- The "login required" keywords (`extractors/base.py` lines 118-120). -/
def loginKeywords : List String :=
  ["login", "sign in", "authentication", "authenticate"]

/-- The "network issues" keywords (`extractors/base.py` lines 124-127). -/
def networkKeywords : List String :=
  ["urlopen error", "timed out", "connection refused",
   "name or service not known", "network is unreachable"]

/-- Function `classify_ytdlp_error` from `app/extractors/base.py` (lines 90-131):
the function always raises; we return the kind of the exception raised.
The rule order in the source is: not-found, then age, then login, then
network, then the `ExtractionFailedError` fallback.  The source contains
no geo-restriction rule and never raises `GeoBlockedError`. -/
def classify (rawMsg : String) : ErrKind :=
  let m := pyLower rawMsg
  if notFoundKeywords.any (fun kw => containsSub kw m) then .notFound
  else if ageKeywords.any (fun kw => containsSub kw m) then .ageRestricted
  else if loginKeywords.any (fun kw => containsSub kw m) then .loginRequired
  else if networkKeywords.any (fun kw => containsSub kw m) then .upstream
  else .extractionFailed

/-- YouTube title clamp, `extractors/youtube.py` lines 388-390:
`if len(title) > 80: title = title[:77] + "…"`. -/
def ytClampTitle (t : String) : String :=
  if 80 < t.length then String.mk (t.data.take 77) ++ "…" else t

/-- Twitter title clamp, `extractors/twitter.py` lines 43-47:
for a truthy title, `title[:80] + ("…" if len(title) > 80 else "")`,
otherwise the `"Twitter Post"` default. -/
def twClampTitle (t : String) : String :=
  if t = "" then "Twitter Post"
  else String.mk (t.data.take 80) ++ (if 80 < t.length then "…" else "")

/-- A 200-repeated-character title, the spec's concrete normalization input. -/
def title200 : String := String.mk (List.replicate 200 'a')

/-- Character classes occurring in the `SUPPORTED_PATTERNS` regexes:
`.` (any non-newline), `[\w-]`, `[\d]`.  Python `\w` is Unicode-aware;
the ASCII reading used here agrees on every URL in the claims. -/
inductive CKind where
  | anyc
  | wdash
  | digitc
deriving DecidableEq, Repr

/-- Whether a class matches a single character. -/
def CKind.matchesChar : CKind → Char → Bool
  | .anyc, c => c != '\n'
  | .wdash, c => c.isAlphanum || c == '_' || c == '-'
  | .digitc, c => c.isDigit

/-- Regular expressions, covering the constructs used by the handlers'
`SUPPORTED_PATTERNS` (literals, optional groups, classes, `*`, `+`). -/
inductive RE where
  | emp
  | eps
  | lit (c : Char)
  | cls (k : CKind)
  | alt (a b : RE)
  | cat (a b : RE)
  | star (a : RE)
deriving DecidableEq, Repr

/-- Does the expression accept the empty word? -/
def RE.nullable : RE → Bool
  | .emp => false
  | .eps => true
  | .lit _ => false
  | .cls _ => false
  | .alt a b => a.nullable || b.nullable
  | .cat a b => a.nullable && b.nullable
  | .star _ => true

/-- Brzozowski derivative with respect to one character. -/
def RE.deriv : RE → Char → RE
  | .emp, _ => .emp
  | .eps, _ => .emp
  | .lit c, d => if c == d then .eps else .emp
  | .cls k, d => if k.matchesChar d then .eps else .emp
  | .alt a b, d => .alt (a.deriv d) (b.deriv d)
  | .cat a b, d =>
    if a.nullable then .alt (.cat (a.deriv d) b) (b.deriv d)
    else .cat (a.deriv d) b
  | .star a, d => .cat (a.deriv d) (.star a)

/-- The `re.match(p, s)` semantics: some prefix of `s` (anchored at its start)
is accepted by `p`. -/
def RE.matchesFromStart : RE → List Char → Bool
  | r, [] => r.nullable
  | r, c :: cs => r.nullable || (r.deriv c).matchesFromStart cs

/-- A string literal as a regex. -/
def reStr (s : String) : RE :=
  s.data.foldr (fun c r => .cat (.lit c) r) .eps

/-- Optional group `(...)?`. -/
def reOpt (r : RE) : RE := .alt .eps r

/-- Repetition `(...)+`. -/
def rePlus (r : RE) : RE := .cat r (.star r)

/-- Sequential composition of a pattern list. -/
def reSeq (rs : List RE) : RE := rs.foldr .cat .eps

/-- Scheme pattern `https?://`. -/
def reHttp : RE := reSeq [reStr "http", reOpt (.lit 's'), reStr "://"]

/-- Host prefix pattern `(www\.)?`. -/
def reWww : RE := reOpt (reStr "www.")

/-- List `YouTubeExtractor.SUPPORTED_PATTERNS` (`extractors/youtube.py` 111-117),
in source order. -/
def youtubePatterns : List RE :=
  [reSeq [reHttp, reWww, reStr "youtube.com/watch?v=", rePlus (.cls .wdash)],
   reSeq [reHttp, reWww, reStr "youtube.com/shorts/", rePlus (.cls .wdash)],
   reSeq [reHttp, reStr "youtu.be/", rePlus (.cls .wdash)],
   reSeq [reHttp, reWww, reStr "youtube.com/watch?", .star (.cls .anyc),
          reStr "v=", rePlus (.cls .wdash)],
   reSeq [reHttp, reWww, reStr "youtube.com/live/", rePlus (.cls .wdash)]]

/-- List `InstagramExtractor.SUPPORTED_PATTERNS` (`extractors/instagram.py` 18-23). -/
def instagramPatterns : List RE :=
  [reSeq [reHttp, reWww, reStr "instagram.com/p/", rePlus (.cls .wdash)],
   reSeq [reHttp, reWww, reStr "instagram.com/reel/", rePlus (.cls .wdash)],
   reSeq [reHttp, reWww, reStr "instagram.com/reels/", rePlus (.cls .wdash)],
   reSeq [reHttp, reWww, reStr "instagram.com/stories/", rePlus (.cls .wdash),
          .lit '/', rePlus (.cls .digitc)]]

/-- A registered extractor as the router sees it: its `platform_name`
display name and its `SUPPORTED_PATTERNS`. -/
structure Handler where
  displayName : String
  patterns : List RE
deriving DecidableEq, Repr

/-- Method `BaseExtractor.matches` (`extractors/base.py` 71-73):
`any(re.match(p, url) for p in self.SUPPORTED_PATTERNS)`. -/
def Handler.handles (h : Handler) (url : String) : Bool :=
  h.patterns.any (fun p => p.matchesFromStart url.data)

/-- Method `ExtractorRouter.resolve` (`router.py` 27-32): first handler in
registration order whose pattern set matches, else `None`. -/
def resolve : List Handler → String → Option Handler
  | [], _ => none
  | h :: hs, url => if h.handles url then some h else resolve hs url

/-- The embedded YouTube handler. -/
def youtubeHandler : Handler :=
  { displayName := "youtube", patterns := youtubePatterns }

/-- The embedded Instagram handler. -/
def instagramHandler : Handler :=
  { displayName := "instagram", patterns := instagramPatterns }

/-- A registry fragment in discovery (alphabetical-module) order. -/
def registry0 : List Handler := [instagramHandler, youtubeHandler]

/-- Class `[\w-]` as a character predicate. -/
def isWordDash (c : Char) : Bool :=
  c.isAlphanum || c == '_' || c == '-'

/-- Capture `([\w-]{11})` anchored at the current position: exactly 11 word/dash
characters must be available (the following text is unconstrained). -/
def idHere (cs : List Char) : Option (List Char) :=
  let pre := cs.take 11
  if pre.length == 11 && pre.all isWordDash then some pre else none

/-- Is `s` a literal prefix of the character list? -/
def litAt (s : String) (cs : List Char) : Bool :=
  s.data.isPrefixOf cs

/-- Greedy `.*v=([\w-]{11})`: the rightmost `v=` followed by a valid id.
The caller restricts the scan to the current line (`.` excludes newlines). -/
def lastVId : List Char → Option (List Char)
  | [] => none
  | c :: cs =>
    match lastVId cs with
    | some r => some r
    | none =>
      if c == 'v' then
        match cs with
        | '=' :: rest => idHere rest
        | _ => none
      else none

/-- One position of `_VIDEO_ID_RE` (`extractors/youtube.py` 100-102):
`(?:youtube\.com/(?:watch\?.*v=|shorts/|live/)|youtu\.be/)([\w-]{11})`,
alternatives tried in source order.  The inner literals are mutually
exclusive, so no cross-alternative backtracking arises. -/
def vidAt (cs : List Char) : Option (List Char) :=
  if litAt "youtube.com/" cs then
    let rest := cs.drop 12
    if litAt "watch?" rest then
      lastVId ((rest.drop 6).takeWhile (fun c => c != '\n'))
    else if litAt "shorts/" rest then idHere (rest.drop 7)
    else if litAt "live/" rest then idHere (rest.drop 5)
    else none
  else if litAt "youtu.be/" cs then idHere (cs.drop 9)
  else none

/-- The `re.search` scan: leftmost position at which `_VIDEO_ID_RE` matches. -/
def searchVid : List Char → Option (List Char)
  | [] => none
  | c :: cs =>
    match vidAt (c :: cs) with
    | some r => some r
    | none => searchVid cs

/-- Method `YouTubeExtractor._parse_video_id` (`extractors/youtube.py` 440-443). -/
def parseVideoId (url : String) : Option String :=
  (searchVid url.data).map String.mk

/-- Abstract outcome of running one extraction strategy: a produced
`MediaInfo`, a `None`/no-result return, an `asyncio.TimeoutError`, a
raised `ExtractionError` of some kind, or any other exception. -/
inductive Outcome where
  | ok (m : MediaInfo)
  | noResult
  | timedOut
  | raised (e : ErrKind)
  | otherExn
deriving DecidableEq, Repr

/-- Exception classes re-raised by youtube strategies 1 and 2
(`except (ContentNotFoundError, AgeRestrictedError): raise`,
`extractors/youtube.py` 133 and 149). -/
def ytHalt12 : ErrKind → Bool
  | .notFound => true
  | .ageRestricted => true
  | _ => false

/-- Exception classes re-raised by youtube strategy 3
(`extractors/youtube.py` 164). -/
def ytHalt3 : ErrKind → Bool
  | .notFound => true
  | .ageRestricted => true
  | .loginRequired => true
  | _ => false

/-- Strategy 3 of `YouTubeExtractor.extract` (`extractors/youtube.py`
154-171): a timeout raises `ExtractionTimeoutError`; the listed permanent
errors re-raise; everything else falls through to the final
`ExtractionFailedError`. -/
def youtubeStep3 (s3 : Outcome) : Except ErrKind MediaInfo :=
  match s3 with
  | .ok m => .ok m
  | .timedOut => .error .timeout
  | .raised e => if ytHalt3 e then .error e else .error .extractionFailed
  | _ => .error .extractionFailed

/-- Strategy 2 of `YouTubeExtractor.extract` (`extractors/youtube.py`
138-152), run only when the CF proxy is configured. -/
def youtubeStep2 (proxyConfigured : Bool) (s2 s3 : Outcome) :
    Except ErrKind MediaInfo :=
  if proxyConfigured then
    match s2 with
    | .ok m => .ok m
    | .timedOut => .error .timeout
    | .raised e => if ytHalt12 e then .error e else youtubeStep3 s3
    | _ => youtubeStep3 s3
  else youtubeStep3 s3

/-- Method `YouTubeExtractor.extract` (`extractors/youtube.py` 119-171) with the
three strategies' network activity abstracted into outcomes.  An
unparsable video id raises `ContentNotFoundError` before any strategy
runs.  Strategy 1 passes on a timeout (its `.noResult` case is vacuous:
the code returns a `MediaInfo` directly) and swallows everything but the
`ytHalt12` classes. -/
def youtubeExtract (url : String) (proxyConfigured : Bool)
    (s1 s2 s3 : Outcome) : Except ErrKind MediaInfo :=
  if (parseVideoId url).isNone then .error .notFound
  else
    match s1 with
    | .ok m => .ok m
    | .raised e =>
      if ytHalt12 e then .error e else youtubeStep2 proxyConfigured s2 s3
    | _ => youtubeStep2 proxyConfigured s2 s3

/-- Exception classes re-raised by instagram strategy 1
(`extractors/instagram.py` 34). -/
def igHalt1 : ErrKind → Bool
  | .notFound => true
  | .loginRequired => true
  | _ => false

/-- Exception classes re-raised by instagram strategy 2
(`extractors/instagram.py` 47). -/
def igHalt2 : ErrKind → Bool
  | .notFound => true
  | .upstream => true
  | _ => false

/-- Strategy 2 of `InstagramExtractor.extract` (`extractors/instagram.py`
40-50): og-meta scraping; any unlisted failure becomes
`ExtractionFailedError`. -/
def instagramStep2 (s2 : Outcome) : Except ErrKind MediaInfo :=
  match s2 with
  | .ok m => .ok m
  | .timedOut => .error .timeout
  | .raised e => if igHalt2 e then .error e else .error .extractionFailed
  | _ => .error .extractionFailed

/-- Method `InstagramExtractor.extract` (`extractors/instagram.py` 25-50).
Unlike youtube, a strategy-1 timeout raises `ExtractionTimeoutError`
immediately; the `.noResult` case is vacuous for strategy 1. -/
def instagramExtract (s1 s2 : Outcome) : Except ErrKind MediaInfo :=
  match s1 with
  | .ok m => .ok m
  | .timedOut => .error .timeout
  | .raised e => if igHalt1 e then .error e else instagramStep2 s2
  | _ => instagramStep2 s2

/-- The `/api/extract` endpoint (`main.py` 106-143) as a function of the
routing result, the `asyncio.wait_for` hard deadline (`EXTRACT_TIMEOUT`,
elapsed ↦ the 504 timeout body) and the selected handler's chain outcome.
A failed resolve raises `UnsupportedPlatformError` carrying
`router.supported_platforms`. -/
def mainExtract (registry : List Handler) (url : String)
    (hardTimeoutElapsed : Bool)
    (runChain : Handler → Except ErrKind MediaInfo) :
    Except ErrKind MediaInfo :=
  match resolve registry url with
  | none => .error (.unsupportedPlatform (registry.map (·.displayName)))
  | some h => if hardTimeoutElapsed then .error .timeout else runChain h

/-- One entry of `streamingData.formats` / `streamingData.adaptiveFormats`
as `_player_response_to_media` reads it: an absent or empty `url` is the
falsy `""`, an absent `height` is the falsy `0` (the code uses
`f.get("url")`, `f.get("height")`, and `f.get("height", 0)` as sort key). -/
structure Fmt where
  url : String := ""
  height : Nat := 0
  mimeType : String := "video/mp4"
  contentLength : Nat := 0
deriving DecidableEq, Repr

/-- Comparator realising `merged.sort(key=..height, reverse=True)`:
descending by height; `List.mergeSort` is stable, as Python's sort is. -/
def selOrder (a b : Fmt) : Bool :=
  b.height ≤ a.height

/-- Rendition selection of `_player_response_to_media`
(`extractors/youtube.py` 356-380): muxed formats with a URL first; if
none, adaptive streams with a URL and a truthy height; if none, anything
with a URL; `None` when nothing remains; then the stable descending sort
by height and `merged[0]`. -/
def selectBest (formats adaptiveFormats : List Fmt) : Option Fmt :=
  let allFormats := formats ++ adaptiveFormats
  if allFormats.isEmpty then none
  else
    let merged := formats.filter (fun f => f.url != "")
    let merged :=
      if merged.isEmpty then
        let videoStreams :=
          adaptiveFormats.filter (fun f => f.url != "" && f.height != 0)
        if videoStreams.isEmpty then merged else videoStreams
      else merged
    let merged :=
      if merged.isEmpty then allFormats.filter (fun f => f.url != "")
      else merged
    if merged.isEmpty then none
    else (merged.mergeSort selOrder).head?

/-- Expression `best.get("mimeType", "video/mp4").split(";")[0].split("/")[-1]`. -/
def mimeToFormat (mt : String) : String :=
  (((mt.splitOn ";").headD mt).splitOn "/").getLastD ""

/-- The `playabilityStatus` object as read by `_player_response_to_media`
(both fields default to `""`). -/
structure Playability where
  status : String := ""
  reason : String := ""
deriving DecidableEq, Repr

/-- The player-response fields `_player_response_to_media` consumes. -/
structure PlayerResponse where
  playability : Playability := {}
  formats : List Fmt := []
  adaptiveFormats : List Fmt := []
  title : Option String := none
  thumbnails : List String := []
  lengthSeconds : Nat := 0
  author : String := ""
deriving DecidableEq, Repr

/-- Method `YouTubeExtractor._player_response_to_media`
(`extractors/youtube.py` 329-403).  Raised exceptions become errors,
`return None` becomes `.ok none`. -/
def playerResponseToMedia (pr : PlayerResponse) :
    Except ErrKind (Option MediaInfo) :=
  let status := pr.playability.status
  if status = "LOGIN_REQUIRED" then
    if containsSub "age" (pyLower pr.playability.reason) then
      .error .ageRestricted
    else .ok none
  else if status = "UNPLAYABLE" then .error .notFound
  else if status = "ERROR" then
    if containsSub "not found" (pyLower pr.playability.reason) ||
        containsSub "unavailable" (pyLower pr.playability.reason) then
      .error .notFound
    else .ok none
  else if status ≠ "OK" then .ok none
  else
    match selectBest pr.formats pr.adaptiveFormats with
    | none => .ok none
    | some best =>
      .ok (some
        { platform := "youtube",
          title := ytClampTitle (pr.title.getD "Untitled"),
          thumbnail := pr.thumbnails.getLastD "",
          mediaType := .video,
          format := mimeToFormat best.mimeType,
          quality := toString best.height ++ "p",
          fileSize := best.contentLength,
          downloadUrl := best.url,
          duration := some (pr.lengthSeconds : Int),
          author := some pr.author })

/-- The yt-dlp info-dict fields `_info_to_media` consumes
(`extractors/youtube.py` 425-438); `height` defaults to the falsy `0`. -/
structure YtInfo where
  title : Option String := none
  thumbnail : Option String := none
  ext : Option String := none
  height : Nat := 0
  filesize : Option Nat := none
  filesizeApprox : Option Nat := none
  url : Option String := none
  duration : Option Int := none
  uploader : Option String := none
deriving DecidableEq, Repr

/-- Non-`ExtractionError` exceptions surfacing from normalisation
(`info["url"]` raises `KeyError` on an absent key). -/
inductive PyExn where
  | keyError
deriving DecidableEq, Repr

/-- Python `a or b or 0` over optional integers (`0`/`None` are falsy). -/
def pyOrNat (a b : Option Nat) : Nat :=
  match a with
  | some n =>
    if n ≠ 0 then n
    else match b with
         | some m => m
         | none => 0
  | none =>
    match b with
    | some m => m
    | none => 0

/-- Method `YouTubeExtractor._info_to_media` (`extractors/youtube.py` 425-438):
every field is copied or defaulted; `download_url=info["url"]` is the only
fallible access and is passed through verbatim, with no emptiness check. -/
def infoToMedia (info : YtInfo) : Except PyExn MediaInfo :=
  match info.url with
  | none => .error .keyError
  | some u =>
    .ok { platform := "youtube",
          title := info.title.getD "Untitled",
          thumbnail := info.thumbnail.getD "",
          mediaType := .video,
          format := info.ext.getD "mp4",
          quality := toString info.height ++ "p",
          fileSize := pyOrNat info.filesize info.filesizeApprox,
          downloadUrl := u,
          duration := info.duration,
          author := info.uploader }

/-- Constant `_MIN_REQUEST_INTERVAL` (`stealth.py` 202), in seconds. -/
def minRequestInterval : ℚ := 3 / 10

/-- Function `_rate_limit_domain` (`stealth.py` 205-215): the timestamp written to
`_domain_last_request[domain]`.  `last` is the stored entry (`.get(domain,
0)`), `now` the first `time.monotonic()` read, `jitter` the
`random.uniform(0.1, 0.5)` draw, and `slack ≥ 0` the extra time covering
`asyncio.sleep` overshoot and the second `time.monotonic()` read. -/
def rateRecord (last : Option ℚ) (now jitter slack : ℚ) : ℚ :=
  let lastv := last.getD 0
  let elapsed := now - lastv
  if elapsed < minRequestInterval then
    now + (minRequestInterval - elapsed + jitter) + slack
  else now + slack

/-- Lookup in the `_domain_last_request` table (front binding wins). -/
def lookupDomain (m : List (String × ℚ)) (d : String) : Option ℚ :=
  m.lookup d

/-- Dict assignment `_domain_last_request[domain] = ...`. -/
def setDomain (m : List (String × ℚ)) (d : String) (t : ℚ) :
    List (String × ℚ) :=
  (d, t) :: m

/-- The effect of `stealth_fetch` (`stealth.py` 218-256) on the only
module-level mutable table, `_domain_last_request`: the rate-limit branch
(`if rate_limit: await _rate_limit_domain(url)`) writes the destination
host's entry; with `rate_limit=False` the call never touches it.  The
HTTP response itself is abstracted away. -/
def stealthFetchState (m : List (String × ℚ)) (host : String)
    (rateLimit : Bool) (now jitter slack : ℚ) : List (String × ℚ) :=
  if rateLimit then
    setDomain m host (rateRecord (lookupDomain m host) now jitter slack)
  else m

/-- C5 (amended): the classifier evaluates a fixed ordered rule set —
not-found keywords first, then age keywords, then login keywords, then
network keywords mapping to upstream-unreachable, with extraction-failed
when no rule matches; any signal containing a not-found keyword (such as
"private") classifies as not-found regardless of other keywords; and the
classifier has no geo-restriction rule, so no signal whatsoever — in
particular none containing only geo-restriction wording — classifies as
geo-blocked. -/
theorem classify_rule_order :
    (∀ msg, notFoundKeywords.any (fun kw => containsSub kw (pyLower msg)) = true →
        classify msg = .notFound) ∧
    (∀ msg, notFoundKeywords.any (fun kw => containsSub kw (pyLower msg)) = false →
        ageKeywords.any (fun kw => containsSub kw (pyLower msg)) = true →
        classify msg = .ageRestricted) ∧
    (∀ msg, notFoundKeywords.any (fun kw => containsSub kw (pyLower msg)) = false →
        ageKeywords.any (fun kw => containsSub kw (pyLower msg)) = false →
        loginKeywords.any (fun kw => containsSub kw (pyLower msg)) = true →
        classify msg = .loginRequired) ∧
    (∀ msg, notFoundKeywords.any (fun kw => containsSub kw (pyLower msg)) = false →
        ageKeywords.any (fun kw => containsSub kw (pyLower msg)) = false →
        loginKeywords.any (fun kw => containsSub kw (pyLower msg)) = false →
        networkKeywords.any (fun kw => containsSub kw (pyLower msg)) = true →
        classify msg = .upstream) ∧
    (∀ msg, notFoundKeywords.any (fun kw => containsSub kw (pyLower msg)) = false →
        ageKeywords.any (fun kw => containsSub kw (pyLower msg)) = false →
        loginKeywords.any (fun kw => containsSub kw (pyLower msg)) = false →
        networkKeywords.any (fun kw => containsSub kw (pyLower msg)) = false →
        classify msg = .extractionFailed) ∧
    (∀ msg, classify msg ≠ .geoBlocked) := by
  refine ⟨?_, ?_, ?_, ?_, ?_, ?_⟩
  · intro msg h1
    simp [classify, h1]
  · intro msg h1 h2
    simp [classify, h1, h2]
  · intro msg h1 h2 h3
    simp [classify, h1, h2, h3]
  · intro msg h1 h2 h3 h4
    simp [classify, h1, h2, h3, h4]
  · intro msg h1 h2 h3 h4
    simp [classify, h1, h2, h3, h4]
  · intro msg
    simp only [classify]
    split
    · decide
    split
    · decide
    split
    · decide
    split
    · decide
    · decide

/-- C5 counterexample: a raw signal containing only geo-restriction
wording classifies as extraction-failed, not geo-blocked, because
`classify_ytdlp_error` has no geo rule. -/
theorem classify_geo_counterexample :
    classify "This video is geo-restricted in your country" =
      ErrKind.extractionFailed ∧
    ErrKind.extractionFailed ≠ ErrKind.geoBlocked := by
  exact ⟨rfl, by decide⟩

/-- C5 witness: the spec's own example — a "private" signal that also
mentions connectivity wording still classifies as not-found. -/
theorem classify_rule_order_witness :
    classify "Private video: connection refused by host" = ErrKind.notFound :=
  classify_rule_order.1 "Private video: connection refused by host" (by decide)

set_option maxRecDepth 10000 in
/-- C3 (amended): a title longer than 80 code points is truncated and
terminated with an appended ellipsis, but the resulting length is 78 in
the youtube normalizer (77 kept characters plus the marker) and 81 in the
twitter normalizer (80 kept characters plus the marker); the 200-repeated-
character title yields exactly those lengths, ending in a single ellipsis. -/
theorem title_clamp_amended :
    (∀ t : String, 80 < t.length →
        ytClampTitle t = String.mk (t.data.take 77) ++ "…" ∧
        (ytClampTitle t).length = 78 ∧
        twClampTitle t = String.mk (t.data.take 80) ++ "…" ∧
        (twClampTitle t).length = 81) ∧
    (ytClampTitle title200).data.getLast? = some '…' ∧
    (ytClampTitle title200).data.count '…' = 1 ∧
    (twClampTitle title200).data.getLast? = some '…' ∧
    (twClampTitle title200).data.count '…' = 1 := by
  constructor
  · intro t ht
    have htd : 80 < t.data.length := ht
    have hne : t ≠ "" := by
      intro e
      subst e
      simp [String.length] at ht
    have hell : ("…" : String).length = 1 := rfl
    refine ⟨?_, ?_, ?_, ?_⟩
    · simp [ytClampTitle, ht]
    · have h1 : ytClampTitle t = String.mk (t.data.take 77) ++ "…" := by
        simp [ytClampTitle, ht]
      rw [h1, String.length_append, String.length_mk, List.length_take, hell]
      omega
    · simp [twClampTitle, ht, hne]
    · have h2 : twClampTitle t = String.mk (t.data.take 80) ++ "…" := by
        simp [twClampTitle, ht, hne]
      rw [h2, String.length_append, String.length_mk, List.length_take, hell]
      omega
  · refine ⟨?_, ?_, ?_, ?_⟩ <;> decide

set_option maxRecDepth 10000 in
/-- C3 counterexample: the 200-repeated-character title does not
normalize to length 80 — youtube yields 78 and twitter yields 81. -/
theorem title_length_counterexample :
    (ytClampTitle title200).length = 78 ∧
    (twClampTitle title200).length = 81 ∧
    (78 ≠ 80 ∧ 81 ≠ 80) := by
  refine ⟨by decide, by decide, by decide⟩

set_option maxRecDepth 10000 in
/-- C3 witness: the general clamp shape applied to the concrete title. -/
theorem title_clamp_amended_witness :
    (ytClampTitle title200).length = 78 :=
  (title_clamp_amended.1 title200 (by decide)).2.1

/-- A concrete successful extraction result, used in counterexamples. -/
def sampleMedia : MediaInfo :=
  { platform := "youtube", title := "sample", thumbnail := "",
    mediaType := .video, format := "mp4", quality := "1080p",
    fileSize := 0, downloadUrl := "https://example.org/v.mp4" }

/-- A URL whose video id parses (11 word characters). -/
def goodYtUrl : String := "https://www.youtube.com/watch?v=dQw4w9WgXcQ"

/-- A URL matching `SUPPORTED_PATTERNS` whose id capture fails
(`v=` is followed by only 3 characters where `_VIDEO_ID_RE` needs 11). -/
def shortIdUrl : String := "https://www.youtube.com/watch?v=abc"

/-- C1 (amended): in the youtube chain, not-found and age-restricted
failures halt the chain from every strategy (1, 2 and 3) and propagate
independently of the later strategies' outcomes; login-required halts
only from strategy 3; in the instagram chain, not-found and
login-required halt from strategy 1.  A login-required failure from
youtube strategy 1 or strategy 2 is swallowed and the chain simply
proceeds to the remaining strategies.  And geo-blocked never halts a
chain: were it raised at any youtube or instagram strategy, the chain
would fall through to the next strategy (or to the final
extraction-failed), never propagating the geo-blocked kind. -/
theorem permanent_halt_amended :
    (∀ url proxy s2 s3, (parseVideoId url).isNone = false →
        youtubeExtract url proxy (.raised .notFound) s2 s3 =
          .error .notFound ∧
        youtubeExtract url proxy (.raised .ageRestricted) s2 s3 =
          .error .ageRestricted) ∧
    (∀ url s3, (parseVideoId url).isNone = false →
        youtubeExtract url true .otherExn (.raised .notFound) s3 =
          .error .notFound ∧
        youtubeExtract url true .otherExn (.raised .ageRestricted) s3 =
          .error .ageRestricted) ∧
    (∀ url proxy, (parseVideoId url).isNone = false →
        youtubeExtract url proxy .otherExn .otherExn (.raised .notFound) =
          .error .notFound ∧
        youtubeExtract url proxy .otherExn .otherExn (.raised .ageRestricted) =
          .error .ageRestricted) ∧
    (∀ url proxy, (parseVideoId url).isNone = false →
        youtubeExtract url proxy .otherExn .otherExn (.raised .loginRequired) =
          .error .loginRequired) ∧
    (∀ s2, instagramExtract (.raised .notFound) s2 = .error .notFound ∧
        instagramExtract (.raised .loginRequired) s2 = .error .loginRequired) ∧
    (∀ url proxy s2 s3, (parseVideoId url).isNone = false →
        youtubeExtract url proxy (.raised .loginRequired) s2 s3 =
          youtubeStep2 proxy s2 s3) ∧
    (∀ url s3, (parseVideoId url).isNone = false →
        youtubeExtract url true .otherExn (.raised .loginRequired) s3 =
          youtubeStep3 s3) ∧
    ((∀ url proxy s2 s3, (parseVideoId url).isNone = false →
        youtubeExtract url proxy (.raised .geoBlocked) s2 s3 =
          youtubeStep2 proxy s2 s3) ∧
     (∀ url s3, (parseVideoId url).isNone = false →
        youtubeExtract url true .otherExn (.raised .geoBlocked) s3 =
          youtubeStep3 s3) ∧
     (∀ url proxy, (parseVideoId url).isNone = false →
        youtubeExtract url proxy .otherExn .otherExn (.raised .geoBlocked) =
          .error .extractionFailed) ∧
     (∀ s2, instagramExtract (.raised .geoBlocked) s2 = instagramStep2 s2) ∧
     (instagramExtract .otherExn (.raised .geoBlocked) =
        .error .extractionFailed)) := by
  refine ⟨?_, ?_, ?_, ?_, ?_, ?_, ?_, ?_, ?_, ?_, ?_, ?_⟩
  · intro url proxy s2 s3 h
    constructor <;> simp [youtubeExtract, h, ytHalt12]
  · intro url s3 h
    constructor <;> simp [youtubeExtract, h, youtubeStep2, ytHalt12]
  · intro url proxy h
    constructor <;> cases proxy <;>
      simp [youtubeExtract, h, youtubeStep2, youtubeStep3, ytHalt12, ytHalt3]
  · intro url proxy h
    cases proxy <;>
      simp [youtubeExtract, h, youtubeStep2, youtubeStep3, ytHalt12, ytHalt3]
  · intro s2
    constructor <;> simp [instagramExtract, igHalt1]
  · intro url proxy s2 s3 h
    simp [youtubeExtract, h, ytHalt12]
  · intro url s3 h
    simp [youtubeExtract, h, youtubeStep2, ytHalt12]
  · intro url proxy s2 s3 h
    simp [youtubeExtract, h, ytHalt12]
  · intro url s3 h
    simp [youtubeExtract, h, youtubeStep2, ytHalt12]
  · intro url proxy h
    cases proxy <;>
      simp [youtubeExtract, h, youtubeStep2, youtubeStep3, ytHalt12, ytHalt3]
  · intro s2
    simp [instagramExtract, igHalt1]
  · simp [instagramExtract, instagramStep2, igHalt2]

/-- C1 counterexample: a login-required failure raised by youtube
strategy 1 does not halt the chain — strategy 2 is still consulted and
its success is returned, so the permanent failure never propagates. -/
theorem permanent_halt_counterexample :
    youtubeExtract goodYtUrl true (.raised .loginRequired)
        (.ok sampleMedia) .otherExn = .ok sampleMedia ∧
    (Except.ok sampleMedia : Except ErrKind MediaInfo) ≠
      .error .loginRequired := by
  exact ⟨rfl, fun h => Except.noConfusion h⟩

/-- C1 witness: a not-found failure from strategy 1 propagates. -/
theorem permanent_halt_amended_witness :
    youtubeExtract goodYtUrl false (.raised .notFound) .otherExn .otherExn =
      .error .notFound :=
  (permanent_halt_amended.1 goodYtUrl false .otherExn .otherExn (by rfl)).1

/-- C2: when every strategy of the youtube chain times out individually,
the chain raises the timeout kind (never extraction-failed), whether or
not the CF proxy strategy is configured; the same holds for the instagram
chain; and whenever the call-level hard deadline of `main.extract`
elapses, the caller receives the timeout kind regardless of the chain's
outcome. -/
theorem all_timeout_yields_timeout :
    (∀ url proxy, (parseVideoId url).isNone = false →
        youtubeExtract url proxy .timedOut .timedOut .timedOut =
          .error .timeout ∧
        youtubeExtract url proxy .timedOut .timedOut .timedOut ≠
          .error .extractionFailed) ∧
    (instagramExtract .timedOut .timedOut = .error .timeout) ∧
    (∀ registry url h runChain, resolve registry url = some h →
        mainExtract registry url true runChain = .error .timeout) := by
  refine ⟨?_, ?_, ?_⟩
  · intro url proxy h
    cases proxy <;>
      constructor <;>
        simp [youtubeExtract, h, youtubeStep2, youtubeStep3]
  · rfl
  · intro registry url h runChain hres
    simp [mainExtract, hres]

/-- C2 witness: the concrete all-timeout run on a parsable URL. -/
theorem all_timeout_yields_timeout_witness :
    youtubeExtract goodYtUrl true .timedOut .timedOut .timedOut =
      .error .timeout :=
  (all_timeout_yields_timeout.1 goodYtUrl true (by rfl)).1

/-- C8 (amended): when the video id cannot be captured from the URL, the
youtube chain raises not-found (`ContentNotFoundError`, not an
invalid-input error) before any strategy — and hence before any network
call — runs: the result is independent of every strategy outcome. -/
theorem unparsable_id_amended :
    ∀ url proxy s1 s2 s3, (parseVideoId url).isNone = true →
      youtubeExtract url proxy s1 s2 s3 = .error .notFound := by
  intro url proxy s1 s2 s3 h
  simp [youtubeExtract, h]

/-- C8 counterexample: `watch?v=abc` is accepted by the handler's
patterns, its id capture fails, and the reported kind is not-found —
not the invalid-input kind the claim names. -/
theorem unparsable_id_counterexample :
    youtubeHandler.handles shortIdUrl = true ∧
    parseVideoId shortIdUrl = none ∧
    youtubeExtract shortIdUrl false .otherExn .otherExn .otherExn =
      .error .notFound ∧
    ErrKind.notFound ≠ ErrKind.invalidUrl := by
  refine ⟨rfl, rfl, rfl, by decide⟩

/-- C8 witness: the amended statement at the concrete unparsable URL. -/
theorem unparsable_id_amended_witness :
    youtubeExtract shortIdUrl true .noResult .noResult .noResult =
      .error .notFound :=
  unparsable_id_amended shortIdUrl true .noResult .noResult .noResult (by rfl)

/-- Function `resolve` is the first-match search over the registry list. -/
theorem resolve_eq_find (hs : List Handler) (url : String) :
    resolve hs url = hs.find? (fun h => h.handles url) := by
  induction hs with
  | nil => rfl
  | cons g gs ih =>
    by_cases hg : g.handles url = true
    · simp [resolve, List.find?_cons_of_pos, hg]
    · simp only [Bool.not_eq_true] at hg
      simp [resolve, List.find?_cons_of_neg, hg, ih]

/-- C6: `resolve` iterates the registered handlers in fixed registration
order and returns the first whose pattern set matches (a handler matches
through OR semantics over its patterns); it returns none exactly when no
handler's patterns match; pattern matching is anchored at the URL's start
(a match never depends on what follows it); and on no-match the caller
reports unsupported-platform listing every registered display name. -/
theorem router_resolve_spec :
    (∀ hs url h, resolve hs url = some h →
        h.handles url = true ∧
        ∃ pre post, hs = pre ++ h :: post ∧
          ∀ g ∈ pre, g.handles url = false) ∧
    (∀ (hs : List Handler) (url : String),
        resolve hs url = none ↔ ∀ h ∈ hs, h.handles url = false) ∧
    (∀ (h : Handler) (url : String),
        h.handles url = true ↔
          ∃ p ∈ h.patterns, p.matchesFromStart url.data = true) ∧
    (∀ (p : RE) (s t : List Char),
        p.matchesFromStart s = true → p.matchesFromStart (s ++ t) = true) ∧
    (∀ hs url hard runChain, resolve hs url = none →
        mainExtract hs url hard runChain =
          .error (.unsupportedPlatform (hs.map (·.displayName)))) := by
  refine ⟨?_, ?_, ?_, ?_, ?_⟩
  · intro hs url h hres
    rw [resolve_eq_find] at hres
    obtain ⟨hp, pre, post, heq, hpre⟩ := List.find?_eq_some.mp hres
    exact ⟨hp, pre, post, heq, fun g hg => by simpa using hpre g hg⟩
  · intro hs url
    rw [resolve_eq_find, List.find?_eq_none]
    constructor
    · intro hh h hmem
      simpa using hh h hmem
    · intro hh h hmem
      simp [hh h hmem]
  · intro h url
    simp [Handler.handles]
  · intro p s t hmatch
    induction s generalizing p with
    | nil =>
      have hn : p.nullable = true := hmatch
      cases t with
      | nil => exact hn
      | cons c cs => simp [RE.matchesFromStart, hn]
    | cons c cs ih =>
      simp only [RE.matchesFromStart, Bool.or_eq_true] at hmatch
      rcases hmatch with hn | hd
      · simp [RE.matchesFromStart, hn]
      · simp [RE.matchesFromStart, ih _ hd]
  · intro hs url hard runChain hres
    simp [mainExtract, hres]

/-- C6 witness: an unsupported URL against the embedded registry yields
the unsupported-platform error with the full display-name list. -/
theorem router_resolve_spec_witness :
    mainExtract registry0 "https://example.com/x" false
        (fun _ => Except.error ErrKind.extractionFailed) =
      .error (.unsupportedPlatform ["instagram", "youtube"]) :=
  router_resolve_spec.2.2.2.2 registry0 "https://example.com/x" false
    (fun _ => Except.error ErrKind.extractionFailed) (by rfl)

/-- C9: two consecutive rate-limited dispatches to the same host record
timestamps at least the minimum interval (0.3 s) apart: when the elapsed
time since the stored dispatch is below the interval, the call sleeps for
the remainder plus the jitter draw (from `random.uniform(0.1, 0.5)`)
before recording the new dispatch time. -/
theorem rate_limit_min_gap :
    ∀ stored now jitter slack : ℚ, stored ≤ now →
      1/10 ≤ jitter → jitter ≤ 1/2 → 0 ≤ slack →
      minRequestInterval ≤ rateRecord (some stored) now jitter slack - stored := by
  intro stored now jitter slack h1 h2 h3 h4
  simp only [rateRecord, Option.getD_some, minRequestInterval] at *
  split <;> linarith

/-- C9 witness: a dispatch 0.1 s after the stored one sleeps and records
a timestamp at least 0.3 s later. -/
theorem rate_limit_min_gap_witness :
    minRequestInterval ≤ rateRecord (some 0) (1/10) (2/10) 0 - 0 :=
  rate_limit_min_gap 0 (1/10) (2/10) 0 (by norm_num) (by norm_num)
    (by norm_num) (by norm_num)

/-- C10 (amended): the per-host last-dispatch table is written on every
outbound stealth call with rate limiting enabled (the default), the new
entry being the freshly recorded dispatch time for the destination host;
a call made with `rate_limit=False` leaves the table untouched. -/
theorem stealth_state_amended :
    (∀ m host now jitter slack,
        stealthFetchState m host true now jitter slack =
          setDomain m host (rateRecord (lookupDomain m host) now jitter slack) ∧
        lookupDomain (stealthFetchState m host true now jitter slack) host =
          some (rateRecord (lookupDomain m host) now jitter slack)) ∧
    (∀ m host now jitter slack,
        stealthFetchState m host false now jitter slack = m) := by
  constructor
  · intro m host now jitter slack
    refine ⟨rfl, ?_⟩
    simp [stealthFetchState, setDomain, lookupDomain, List.lookup]
  · intro m host now jitter slack
    rfl

/-- C10 counterexample: `stealth_fetch` with `rate_limit=False` — exactly
as the youtube InnerTube strategy issues it (`youtube.py` line 313) — is
an outbound call through the stealth layer that does not mutate
`_domain_last_request`. -/
theorem stealth_state_counterexample :
    stealthFetchState [("example.org", 5)] "www.youtube.com" false 1 (1/10) 0 =
      [("example.org", 5)] := rfl

/-- The sort comparator is transitive. -/
theorem selOrder_trans (a b c : Fmt) (hab : selOrder a b) (hbc : selOrder b c) :
    selOrder a c := by
  simp only [selOrder, decide_eq_true_eq] at *
  omega

/-- The sort comparator is total. -/
theorem selOrder_total (a b : Fmt) : selOrder a b || selOrder b a := by
  simp only [selOrder, Bool.or_eq_true, decide_eq_true_eq]
  omega

/-- The head of the stable descending sort is a member of maximal height. -/
theorem head_mergeSort_best {l : List Fmt} {g : Fmt}
    (hg : (l.mergeSort selOrder).head? = some g) :
    g ∈ l ∧ ∀ x ∈ l, x.height ≤ g.height := by
  have hsor := List.sorted_mergeSort selOrder_trans selOrder_total l
  cases hms : l.mergeSort selOrder with
  | nil => rw [hms] at hg; cases hg
  | cons a rest =>
    rw [hms] at hg hsor
    simp only [List.head?_cons, Option.some.injEq] at hg
    constructor
    · have hmem : g ∈ l.mergeSort selOrder := by
        rw [hms, ← hg]
        exact List.mem_cons_self _ _
      exact List.mem_mergeSort.mp hmem
    · intro x hx
      have hx2 : x ∈ l.mergeSort selOrder := List.mem_mergeSort.mpr hx
      rw [hms] at hx2
      rcases List.mem_cons.mp hx2 with h | h
      · rw [h, hg]
      · have hle := (List.pairwise_cons.mp hsor).1 x h
        rw [← hg]
        simpa [selOrder] using hle

/-- When some muxed format has a URL, selection reduces to the sorted
muxed-with-URL list. -/
theorem selectBest_muxed_case {formats adaptiveFormats : List Fmt}
    (hne : formats.filter (fun f => f.url != "") ≠ []) :
    selectBest formats adaptiveFormats =
      ((formats.filter (fun f => f.url != "")).mergeSort selOrder).head? := by
  have hfne : formats ≠ [] := by
    intro e
    rw [e] at hne
    exact hne rfl
  have hall : (formats ++ adaptiveFormats).isEmpty = false := by
    cases formats with
    | nil => exact absurd rfl hfne
    | cons a l => rfl
  have hm : (formats.filter (fun f => f.url != "")).isEmpty = false := by
    simpa [List.isEmpty_iff] using hne
  simp [selectBest, hall, hm]

/-- With no muxed URL but a usable adaptive video stream, selection
reduces to the sorted adaptive list with URL and truthy height. -/
theorem selectBest_adaptive_case {formats adaptiveFormats : List Fmt}
    (hmux : formats.filter (fun f => f.url != "") = [])
    (hvs : adaptiveFormats.filter (fun f => f.url != "" && f.height != 0) ≠ []) :
    selectBest formats adaptiveFormats =
      ((adaptiveFormats.filter (fun f => f.url != "" && f.height != 0)).mergeSort
        selOrder).head? := by
  have hane : adaptiveFormats ≠ [] := by
    intro e
    rw [e] at hvs
    exact hvs rfl
  have hall : (formats ++ adaptiveFormats).isEmpty = false := by
    simp [List.isEmpty_iff, hane]
  have hv : (adaptiveFormats.filter
      (fun f => f.url != "" && f.height != 0)).isEmpty = false := by
    simpa [List.isEmpty_iff] using hvs
  have hm : (formats.filter (fun f => f.url != "")).isEmpty = true := by
    simp [List.isEmpty_iff, hmux]
  simp [selectBest, hall, hm, hmux, hv]

/-- With no usable URL anywhere, selection yields no result. -/
theorem selectBest_none_of_no_url {formats adaptiveFormats : List Fmt}
    (h : ∀ f ∈ formats ++ adaptiveFormats, f.url = "") :
    selectBest formats adaptiveFormats = none := by
  have hmux : formats.filter (fun f => f.url != "") = [] := by
    rw [List.filter_eq_nil_iff]
    intro f hf
    simp [h f (List.mem_append_left _ hf)]
  have hvs : adaptiveFormats.filter
      (fun f => f.url != "" && f.height != 0) = [] := by
    rw [List.filter_eq_nil_iff]
    intro f hf
    simp [h f (List.mem_append_right _ hf)]
  have hlast : (formats ++ adaptiveFormats).filter (fun f => f.url != "") = [] := by
    rw [List.filter_eq_nil_iff]
    intro f hf
    simp [h f hf]
  by_cases hall : (formats ++ adaptiveFormats).isEmpty = true
  · simp [selectBest, hall]
  · simp only [Bool.not_eq_true] at hall
    simp [selectBest, hall, hmux, hvs, hlast]

/-- With no muxed URL and no usable adaptive stream, selection reduces to
the sorted last-resort list (anything with a URL). -/
theorem selectBest_lastresort_case {formats adaptiveFormats : List Fmt}
    (hmux : formats.filter (fun f => f.url != "") = [])
    (hvs : adaptiveFormats.filter (fun f => f.url != "" && f.height != 0) = [])
    (hlast : (formats ++ adaptiveFormats).filter (fun f => f.url != "") ≠ []) :
    selectBest formats adaptiveFormats =
      (((formats ++ adaptiveFormats).filter (fun f => f.url != "")).mergeSort
        selOrder).head? := by
  have hallne : formats ++ adaptiveFormats ≠ [] := by
    intro e
    rw [e] at hlast
    exact hlast rfl
  have hall : (formats ++ adaptiveFormats).isEmpty = false := by
    simpa [List.isEmpty_iff] using hallne
  have hfa : (formats ++ adaptiveFormats).filter (fun f => f.url != "") =
      adaptiveFormats.filter (fun f => f.url != "") := by
    rw [List.filter_append, hmux, List.nil_append]
  rw [hfa] at hlast
  have hl : (adaptiveFormats.filter
      (fun f => f.url != "")).isEmpty = false := by
    simpa [List.isEmpty_iff] using hlast
  rw [hfa]
  simp [selectBest, hall, hmux, hvs, hl, hfa]

/-- Every selected rendition carries a non-empty URL: each of the three
candidate pools is filtered on a truthy `url`. -/
theorem selectBest_some_url {formats adaptiveFormats : List Fmt} {g : Fmt}
    (h : selectBest formats adaptiveFormats = some g) : g.url ≠ "" := by
  by_cases hmux : formats.filter (fun f => f.url != "") = []
  · by_cases hvs : adaptiveFormats.filter
        (fun f => f.url != "" && f.height != 0) = []
    · by_cases hlast : (formats ++ adaptiveFormats).filter
          (fun f => f.url != "") = []
      · have hnone : selectBest formats adaptiveFormats = none := by
          apply selectBest_none_of_no_url
          intro f hf
          have := List.filter_eq_nil_iff.mp hlast f hf
          simpa using this
        rw [hnone] at h
        cases h
      · rw [selectBest_lastresort_case hmux hvs hlast] at h
        have hmem := (head_mergeSort_best h).1
        have := (List.mem_filter.mp hmem).2
        simpa using this
    · rw [selectBest_adaptive_case hmux hvs] at h
      have hmem := (head_mergeSort_best h).1
      have := (List.mem_filter.mp hmem).2
      simp only [Bool.and_eq_true] at this
      simpa using this.1
  · rw [selectBest_muxed_case hmux] at h
    have hmem := (head_mergeSort_best h).1
    have := (List.mem_filter.mp hmem).2
    simpa using this

/-- C7: rendition selection prefers a muxed (audio+video) rendition with
a usable URL over adaptive streams, choosing maximal height among them;
with no such muxed rendition it falls back to the highest adaptive
stream exposing a URL and a truthy height; with no usable URL anywhere it
produces no result; and on the spec's concrete candidate set — heights
[480, 720, 1080] with 480 and 1080 muxed and 1080 also adaptive-only —
it selects the muxed 1080p rendition. -/
theorem rendition_selection_spec :
    (∀ (formats adaptiveFormats : List Fmt) (f : Fmt),
        f ∈ formats → f.url ≠ "" →
        ∃ g, selectBest formats adaptiveFormats = some g ∧ g ∈ formats ∧
          g.url ≠ "" ∧ ∀ x ∈ formats, x.url ≠ "" → x.height ≤ g.height) ∧
    (∀ (formats adaptiveFormats : List Fmt) (a : Fmt),
        (∀ f ∈ formats, f.url = "") → a ∈ adaptiveFormats → a.url ≠ "" →
        a.height ≠ 0 →
        ∃ g, selectBest formats adaptiveFormats = some g ∧
          g ∈ adaptiveFormats ∧ g.url ≠ "" ∧ g.height ≠ 0 ∧
          ∀ x ∈ adaptiveFormats, x.url ≠ "" → x.height ≠ 0 →
            x.height ≤ g.height) ∧
    (∀ formats adaptiveFormats : List Fmt,
        (∀ f ∈ formats ++ adaptiveFormats, f.url = "") →
        selectBest formats adaptiveFormats = none) ∧
    (selectBest
        [{url := "u480", height := 480}, {url := "u1080", height := 1080}]
        [{url := "u720", height := 720}, {url := "u1080a", height := 1080}] =
      some {url := "u1080", height := 1080}) := by
  have part1 : ∀ (formats adaptiveFormats : List Fmt) (f : Fmt),
      f ∈ formats → f.url ≠ "" →
      ∃ g, selectBest formats adaptiveFormats = some g ∧ g ∈ formats ∧
        g.url ≠ "" ∧ ∀ x ∈ formats, x.url ≠ "" → x.height ≤ g.height := by
    intro formats adaptiveFormats f hf hfu
    have hfmem : f ∈ formats.filter (fun f => f.url != "") := by
      rw [List.mem_filter]
      exact ⟨hf, by simpa using hfu⟩
    have hne : formats.filter (fun f => f.url != "") ≠ [] := by
      intro e
      rw [e] at hfmem
      cases hfmem
    rw [selectBest_muxed_case hne]
    cases hms : (formats.filter (fun f => f.url != "")).mergeSort selOrder with
    | nil =>
      have := List.mergeSort_perm (formats.filter (fun f => f.url != "")) selOrder
      rw [hms] at this
      exact absurd this.symm.eq_nil hne
    | cons g rest =>
      refine ⟨g, rfl, ?_, ?_, ?_⟩
      · have hg : g ∈ formats.filter (fun f => f.url != "") := by
          have : g ∈ (formats.filter (fun f => f.url != "")).mergeSort selOrder := by
            rw [hms]; exact List.mem_cons_self _ _
          exact List.mem_mergeSort.mp this
        exact (List.mem_filter.mp hg).1
      · have hg : g ∈ formats.filter (fun f => f.url != "") := by
          have : g ∈ (formats.filter (fun f => f.url != "")).mergeSort selOrder := by
            rw [hms]; exact List.mem_cons_self _ _
          exact List.mem_mergeSort.mp this
        have := (List.mem_filter.mp hg).2
        simpa using this
      · intro x hx hxu
        have hbest := head_mergeSort_best (l := formats.filter (fun f => f.url != ""))
          (g := g) (by rw [hms]; rfl)
        refine hbest.2 x ?_
        rw [List.mem_filter]
        exact ⟨hx, by simpa using hxu⟩
  refine ⟨part1, ?_, ?_, ?_⟩
  · intro formats adaptiveFormats a hform ha hau hah
    have hmux : formats.filter (fun f => f.url != "") = [] := by
      rw [List.filter_eq_nil_iff]
      intro f hf
      simp [hform f hf]
    have hamem : a ∈ adaptiveFormats.filter
        (fun f => f.url != "" && f.height != 0) := by
      rw [List.mem_filter]
      refine ⟨ha, ?_⟩
      simp only [Bool.and_eq_true]
      exact ⟨by simpa using hau, by simpa using hah⟩
    have hvs : adaptiveFormats.filter
        (fun f => f.url != "" && f.height != 0) ≠ [] := by
      intro e
      rw [e] at hamem
      cases hamem
    rw [selectBest_adaptive_case hmux hvs]
    cases hms : (adaptiveFormats.filter
        (fun f => f.url != "" && f.height != 0)).mergeSort selOrder with
    | nil =>
      have := List.mergeSort_perm
        (adaptiveFormats.filter (fun f => f.url != "" && f.height != 0)) selOrder
      rw [hms] at this
      exact absurd this.symm.eq_nil hvs
    | cons g rest =>
      have hg : g ∈ adaptiveFormats.filter
          (fun f => f.url != "" && f.height != 0) := by
        have : g ∈ (adaptiveFormats.filter
            (fun f => f.url != "" && f.height != 0)).mergeSort selOrder := by
          rw [hms]; exact List.mem_cons_self _ _
        exact List.mem_mergeSort.mp this
      have hgp := (List.mem_filter.mp hg).2
      simp only [Bool.and_eq_true] at hgp
      refine ⟨g, rfl, (List.mem_filter.mp hg).1,
        by simpa using hgp.1, by simpa using hgp.2, ?_⟩
      intro x hx hxu hxh
      have hbest := head_mergeSort_best
        (l := adaptiveFormats.filter (fun f => f.url != "" && f.height != 0))
        (g := g) (by rw [hms]; rfl)
      refine hbest.2 x ?_
      rw [List.mem_filter]
      refine ⟨hx, ?_⟩
      simp only [Bool.and_eq_true]
      exact ⟨by simpa using hxu, by simpa using hxh⟩
  · intro formats adaptiveFormats h
    exact selectBest_none_of_no_url h
  · obtain ⟨g, hsel, hgmem, hgu, hgmax⟩ := part1
      [{url := "u480", height := 480}, {url := "u1080", height := 1080}]
      [{url := "u720", height := 720}, {url := "u1080a", height := 1080}]
      {url := "u1080", height := 1080} (by simp) (by simp)
    have h1080 : ({url := "u1080", height := 1080} : Fmt).height ≤ g.height :=
      hgmax _ (by simp) (by simp)
    rcases List.mem_cons.mp hgmem with hcase | hcase
    · rw [hcase] at h1080
      simp at h1080
    · rcases List.mem_cons.mp hcase with hcase2 | hcase2
      · rw [hsel, hcase2]
      · cases hcase2

/-- C7 witness: an offer with no usable URL produces no result. -/
theorem rendition_selection_spec_witness :
    selectBest [{height := 480}] [{height := 720}] = none :=
  rendition_selection_spec.2.2.1 [{height := 480}] [{height := 720}] (by simp)

/-- C4 (amended): the player-response normalizer never returns a
MediaInfo with an empty download URL (every rendition pool is filtered on
a truthy url), and a yt-dlp info dict lacking the url key fails with a
KeyError — a generic exception, not a returned result; the MediaInfo
model itself, however, performs no validation, and an info dict carrying
an empty-string url is passed through verbatim (see the counterexample). -/
theorem download_url_amended :
    (∀ pr m, playerResponseToMedia pr = .ok (some m) → m.downloadUrl ≠ "") ∧
    (∀ info : YtInfo, info.url = none → infoToMedia info = .error .keyError) := by
  constructor
  · intro pr m h
    simp only [playerResponseToMedia] at h
    split at h
    · split at h
      · cases h
      · simp at h
    · split at h
      · cases h
      · split at h
        · split at h
          · cases h
          · simp at h
        · split at h
          · simp at h
          · split at h
            · simp at h
            · rename_i best hsel
              simp only [Except.ok.injEq, Option.some.injEq] at h
              have hgu : best.url ≠ "" := selectBest_some_url hsel
              rw [← h]
              exact hgu
  · intro info hnone
    simp [infoToMedia, hnone]

/-- The MediaInfo value produced from an info dict whose url is `""`. -/
def emptyUrlMedia : MediaInfo :=
  { platform := "youtube", title := "Untitled", thumbnail := "",
    mediaType := .video, format := "mp4", quality := "0p",
    fileSize := 0, downloadUrl := "" }

/-- C4 counterexample: a raw upstream info dict whose url field is the
empty string normalizes to a returned MediaInfo whose download_url is
empty — nothing raises extraction-failed and the model accepts it. -/
theorem download_url_counterexample :
    infoToMedia { url := some "" } = .ok emptyUrlMedia ∧
    emptyUrlMedia.downloadUrl = "" :=
  ⟨rfl, rfl⟩

/-- C4 witness: an info dict with no url key fails with a KeyError. -/
theorem download_url_amended_witness :
    infoToMedia {} = .error .keyError :=
  download_url_amended.2 {} (by rfl)

end Linkoader
